import Mathlib

/-!
Shallow embedding of the Waterford Wave API server (`src/index.ts`).

The program is a small Express HTTP service with two GET routes
(`/health` and `/`), a `PORT` configuration read from the environment,
and a signal-triggered shutdown handler that disconnects the Prisma
database client and exits.  The embedding below models:

* the database client (`prisma`) as an explicit state recording
  reachability, a failure message, how many round-trip queries have been
  issued, and whether the client is still connected;
* each route handler as a pure function from a request-time world
  (database state, `process.uptime()` value, wall-clock milliseconds) to
  an `Except`-wrapped response (a handler that threw would surface as an
  `Except.error`, which Express turns into a 5xx), the database state
  after the request, and the list of console log lines emitted;
* `new Date().toISOString()` concretely (Gregorian civil-from-days plus
  fixed-width decimal padding), as JavaScript renders instants between
  the epoch and year 9999;
* `parseInt(process.env.PORT || "8080", 10)` with JavaScript semantics:
  `undefined` and `""` are falsy, and `parseInt` returns `NaN`
  (modelled as `none`) when no leading digits are found;
* the `shutdown` arrow function as a three-instruction body run under
  JavaScript async semantics: a rejected `await` aborts the rest of the
  body and surfaces as an unhandled promise rejection.
-/

namespace WaterfordWaveApi

/-- JSON values appearing in this service's responses: strings and
numbers (JavaScript numbers, carried opaquely as `Float`; the program
never computes with them, it only serializes `process.uptime()`). -/
inductive Json where
  | str (s : String)
  | num (x : Float)

/-- An HTTP response as produced by `res.json(...)`: Express sends the
default status code 200 with the given JSON object body (modelled as an
association list preserving field order). -/
structure Response where
  statusCode : Nat
  body : List (String × Json)

/-- Constructor for `res.json(body)`: status 200 plus the body. -/
def jsonResponse (body : List (String × Json)) : Response :=
  { statusCode := 200, body := body }

/-- The HTTP status Express ultimately sends for a handler run: a normal
response's own status, or 500 when the handler escaped with an uncaught
error (Express's default error path). -/
def expressStatusOf : Except String Response → Nat
  | .ok r => r.statusCode
  | .error _ => 500

/-- State of the Prisma database client: whether the backing database is
currently reachable, the error message a failed query would carry, the
number of round-trip queries issued so far, and whether the client is
connected. -/
structure Db where
  reachable : Bool
  failMsg : String
  queries : Nat
  connected : Bool
deriving DecidableEq, Repr

/-- Model of `await prisma.$queryRaw‵SELECT 1‵`: one database
round-trip.  It increments the query counter and either resolves
(`Except.ok`) when the database is reachable or rejects (`Except.error`)
with the failure message otherwise. -/
def queryRawSelect1 (db : Db) : Except String Unit × Db :=
  (if db.reachable then Except.ok () else Except.error db.failMsg,
   { db with queries := db.queries + 1 })

/-- The world a request handler observes: the database state, the value
`process.uptime()` returns (seconds since process start, a JavaScript
double), and the current wall-clock time in milliseconds since the Unix
epoch (`new Date()`). -/
structure World where
  db : Db
  uptimeSec : Float
  nowMs : Nat

/-- Digits of `n` in a fixed two-character field, as JavaScript's
padded decimal rendering produces for `0 ≤ n < 100`. -/
def pad2 (n : Nat) : List Char :=
  [Nat.digitChar (n / 10 % 10), Nat.digitChar (n % 10)]

/-- Digits of `n` in a fixed three-character field. -/
def pad3 (n : Nat) : List Char :=
  [Nat.digitChar (n / 100 % 10), Nat.digitChar (n / 10 % 10), Nat.digitChar (n % 10)]

/-- Digits of `n` in a fixed four-character field. -/
def pad4 (n : Nat) : List Char :=
  Nat.digitChar (n / 1000 % 10) :: pad3 n

/-- Gregorian civil date (year, month, day) from a count of days since
1970-01-01, by the standard era/day-of-era decomposition used by
JavaScript engines for `Date` component extraction. -/
def civilFromDays (days : Nat) : Nat × Nat × Nat :=
  let z := days + 719468
  let era := z / 146097
  let doe := z % 146097
  let yoe := (doe - doe / 1460 + doe / 36524 - doe / 146096) / 365
  let y := yoe + era * 400
  let doy := doe - (365 * yoe + yoe / 4 - yoe / 100)
  let mp := (5 * doy + 2) / 153
  let d := doy - (153 * mp + 2) / 5 + 1
  let m := if mp < 10 then mp + 3 else mp - 9
  (if m ≤ 2 then y + 1 else y, m, d)

/-- Model of `new Date(ms).toISOString()` for instants at or after the
Unix epoch and before year 10000: the 24-character simplified ISO-8601
form `YYYY-MM-DDTHH:mm:ss.sssZ` in UTC. -/
def toISOString (ms : Nat) : String :=
  let days := ms / 86400000
  let msod := ms % 86400000
  let ymd := civilFromDays days
  String.mk
    (pad4 ymd.1 ++ ['-'] ++ pad2 ymd.2.1 ++ ['-'] ++ pad2 ymd.2.2 ++ ['T']
      ++ pad2 (msod / 3600000) ++ [':'] ++ pad2 (msod % 3600000 / 60000) ++ [':']
      ++ pad2 (msod % 60000 / 1000) ++ ['.'] ++ pad3 (msod % 1000) ++ ['Z'])

/-- Decides whether a string has the simplified ISO-8601 UTC shape
`YYYY-MM-DDTHH:mm:ss.sssZ`: exactly 24 characters, digits in the
component positions and the literal separators in between. -/
def isISO8601UTC (s : String) : Bool :=
  match s.data with
  | [y1, y2, y3, y4, h1, mo1, mo2, h2, d1, d2, t, hh1, hh2, c1, mm1, mm2, c2,
     ss1, ss2, dot, f1, f2, f3, z] =>
      y1.isDigit && y2.isDigit && y3.isDigit && y4.isDigit && h1 == '-' &&
      mo1.isDigit && mo2.isDigit && h2 == '-' && d1.isDigit && d2.isDigit &&
      t == 'T' && hh1.isDigit && hh2.isDigit && c1 == ':' && mm1.isDigit &&
      mm2.isDigit && c2 == ':' && ss1.isDigit && ss2.isDigit && dot == '.' &&
      f1.isDigit && f2.isDigit && f3.isDigit && z == 'Z'
  | _ => false

/-- Handler of `GET /health` (`app.get("/health", ...)`): performs the
one `SELECT 1` round-trip inside try/catch (`dbOk` starts `false` and
becomes `true` only when the query resolves; a rejection is caught and
logged with `console.error`), then answers `res.json` with the status
string, the uptime and the ISO timestamp. -/
def healthHandler (w : World) : Except String Response × Db × List String :=
  let (result, db1) := queryRawSelect1 w.db
  let (dbOk, logs) :=
    match result with
    | .ok _ => (true, ([] : List String))
    | .error e => (false, ["DB check failed: " ++ e])
  (Except.ok (jsonResponse
      [("status", Json.str (if dbOk then "healthy" else "degraded")),
       ("uptime", Json.num w.uptimeSec),
       ("timestamp", Json.str (toISOString w.nowMs))]),
   db1, logs)

/-- Handler of `GET /` (`app.get("/", ...)`): answers the constant
service descriptor, touching neither the database nor the console. -/
def rootHandler (w : World) : Except String Response × Db × List String :=
  (Except.ok (jsonResponse
      [("service", Json.str "API Server"),
       ("status", Json.str "running"),
       ("version", Json.str "1.0.0")]),
   w.db, [])

/-- The GET routing table built by the two `app.get` calls: `/health`
and `/` are the only registered paths. -/
def handleGet (path : String) (w : World) :
    Option (Except String Response × Db × List String) :=
  if path = "/health" then some (healthHandler w)
  else if path = "/" then some (rootHandler w)
  else none

/-- JavaScript `a || b` on an optional environment string: `undefined`
(here `none`) and the empty string are falsy, everything else is kept. -/
def jsOrDefault (v : Option String) (dflt : String) : String :=
  match v with
  | none => dflt
  | some s => if s = "" then dflt else s

/-- JavaScript `parseInt(s, 10)`: skip leading whitespace, read an
optional sign, then the longest run of decimal digits; the result is
`NaN` (modelled as `none`) when that run is empty, and otherwise the
signed value of the digits, ignoring any trailing garbage. -/
def jsParseInt10 (s : String) : Option Int :=
  let cs := s.data.dropWhile (fun c => c.isWhitespace)
  let signAndRest : Int × List Char :=
    match cs with
    | '-' :: rest => (-1, rest)
    | '+' :: rest => (1, rest)
    | _ => (1, cs)
  let digits := signAndRest.2.takeWhile (fun c => c.isDigit)
  if digits.isEmpty then none
  else some (signAndRest.1 *
    (digits.foldl (fun acc c => 10 * acc + ((c.toNat - 48 : Nat) : Int)) 0))

/-- The `PORT` constant of `index.ts`:
`parseInt(process.env.PORT || "8080", 10)`, as a function of the
environment variable's value (`none` when unset); `none` in the result
is `NaN`. -/
def PORT (envPORT : Option String) : Option Int :=
  jsParseInt10 (jsOrDefault envPORT "8080")

/-- Observable events of the shutdown path: a console log line, the
start of a `prisma.$disconnect()` round-trip, and a process exit with
the given code. -/
inductive SigEvent where
  | logged (s : String)
  | disconnectAttempt
  | processExit (code : Nat)
deriving DecidableEq, Repr

/-- How one run of the async handler ends: it called `process.exit`, or
an awaited promise rejected with no catch around it (an unhandled
rejection), or the body ran off its end. -/
inductive HandlerOutcome where
  | exited (code : Nat)
  | unhandledRejection (e : String)
  | finished
deriving DecidableEq, Repr

/-- Statements of the `shutdown` arrow-function body, in source order. -/
inductive Instr where
  | consoleLog (s : String)
  | awaitDisconnect
  | exitInstr (code : Nat)
deriving DecidableEq, Repr

/-- The string logged on entry to `shutdown`. -/
def shutdownLogMsg : String := "\n🛑 Shutting down..."

/-- The body of `shutdown` as written in `index.ts`:
`console.log("\n🛑 Shutting down..."); await prisma.$disconnect();
process.exit(0);` — note there is no guard flag and no try/catch. -/
def shutdownBody : List Instr :=
  [Instr.consoleLog shutdownLogMsg, Instr.awaitDisconnect, Instr.exitInstr 0]

/-- JavaScript async execution of an instruction list, given the
outcome `disc` that `prisma.$disconnect()` settles to: a resolved await
continues with the rest of the body, a rejected await throws out of the
async function (the remaining statements never run and the rejection is
unhandled), and `process.exit` stops everything with its code. -/
def runAsync (disc : Except String Unit) : List Instr → List SigEvent × HandlerOutcome
  | [] => ([], HandlerOutcome.finished)
  | Instr.consoleLog s :: rest =>
      let k := runAsync disc rest
      (SigEvent.logged s :: k.1, k.2)
  | Instr.awaitDisconnect :: rest =>
      match disc with
      | .ok _ =>
          let k := runAsync disc rest
          (SigEvent.disconnectAttempt :: k.1, k.2)
      | .error e => ([SigEvent.disconnectAttempt], HandlerOutcome.unhandledRejection e)
  | Instr.exitInstr c :: _ => ([SigEvent.processExit c], HandlerOutcome.exited c)

/-- One delivery of a termination signal runs the registered `shutdown`
handler: the event trace and how the handler run ends, as a function of
how the disconnect settles. -/
def shutdown (disc : Except String Unit) : List SigEvent × HandlerOutcome :=
  runAsync disc shutdownBody

/-- The two termination signals the program subscribes to. -/
inductive Signal where
  | SIGTERM
  | SIGINT
deriving DecidableEq, Repr

/-- The `process.on` registrations: both signals are bound to the same
`shutdown` handler. -/
def registeredHandler : Signal → (Except String Unit → List SigEvent × HandlerOutcome)
  | Signal.SIGTERM => shutdown
  | Signal.SIGINT => shutdown

/-- The final exit code of the Node.js process after a handler run: the
code passed to `process.exit`, or 1 when the run left an unhandled
promise rejection (Node's default since v15 raises it and crashes the
process with code 1), or no exit at all (`none`) when the body simply
finished. -/
def nodeFinalExitCode : HandlerOutcome → Option Nat
  | HandlerOutcome.exited c => some c
  | HandlerOutcome.unhandledRejection _ => some 1
  | HandlerOutcome.finished => none

/-- The whole-process event trace of one signal delivery, including the
crash exit the Node runtime appends when the handler run ends in an
unhandled rejection. -/
def runtimeTrace (sig : Signal) (disc : Except String Unit) : List SigEvent :=
  let r := registeredHandler sig disc
  r.1 ++
    match r.2 with
    | HandlerOutcome.unhandledRejection _ => [SigEvent.processExit 1]
    | _ => []

/-- Execution of a handler body up to the point where it suspends at
`await prisma.$disconnect()`: the events so far (including starting the
disconnect round-trip) and the continuation still to run when the await
settles.  A `process.exit` hit first ends the process instead. -/
def runToAwait : List Instr → List SigEvent × List Instr
  | [] => ([], [])
  | Instr.consoleLog s :: rest =>
      let k := runToAwait rest
      (SigEvent.logged s :: k.1, k.2)
  | Instr.awaitDisconnect :: rest => ([SigEvent.disconnectAttempt], rest)
  | Instr.exitInstr c :: _ => ([SigEvent.processExit c], [])

/-- Event-loop schedule in which a second termination signal is
delivered while the first `shutdown` invocation is suspended at its
`await prisma.$disconnect()`: Node invokes the registered handler again
from the top (nothing in `shutdownBody` consults a guard flag and the
listeners stay installed), so the trace up to the point where both
invocations are suspended is two copies of the handler's pre-await
run. -/
def reentrantDeliveryEvents : List SigEvent :=
  (runToAwait shutdownBody).1 ++ (runToAwait shutdownBody).1

/-- Any final decimal digit renders as a digit character. -/
theorem digitChar_mod10_isDigit (n : Nat) : (Nat.digitChar (n % 10)).isDigit = true := by
  have h : n % 10 < 10 := Nat.mod_lt _ (by decide)
  have hall : ∀ d, d < 10 → (Nat.digitChar d).isDigit = true := by decide
  exact hall _ h

/-- The modelled `toISOString` always produces the 24-character
simplified ISO-8601 UTC shape. -/
theorem toISOString_isISO8601 (ms : Nat) :
    isISO8601UTC (toISOString ms) = true := by
  simp [toISOString, isISO8601UTC, civilFromDays, pad2, pad3, pad4, digitChar_mod10_isDigit]

/-- Sanity check of the date model at the Unix epoch. -/
theorem toISOString_epoch : toISOString 0 = "1970-01-01T00:00:00.000Z" := by decide

/-- C1: For every state of the database (reachable or unreachable), a
GET /health request is routed to `healthHandler`, which returns HTTP
status 200 with a JSON body; the database probe failure is caught inside
the handler, so the run never ends in an error that Express would turn
into an HTTP error response. -/
theorem health_always_http_200 (w : World) :
    handleGet "/health" w = some (healthHandler w) ∧
    expressStatusOf (healthHandler w).1 = 200 ∧
    ∃ r : Response, (healthHandler w).1 = Except.ok r ∧ r.statusCode = 200 := by
  refine ⟨rfl, ?_⟩
  cases h : w.db.reachable <;>
    simp [healthHandler, queryRawSelect1, expressStatusOf, jsonResponse, h]

/-- C2: For every GET /health request, the `status` field of the response
is "healthy" if and only if the single `SELECT 1` round-trip succeeds and
"degraded" if and only if it fails (in which case the failure is logged
with the `DB check failed:` line); no other value of `status` occurs. -/
theorem health_status_reflects_probe (w : World) :
    ∃ s : String,
      (healthHandler w).1 = Except.ok (jsonResponse
        [("status", Json.str s),
         ("uptime", Json.num w.uptimeSec),
         ("timestamp", Json.str (toISOString w.nowMs))]) ∧
      (s = "healthy" ∨ s = "degraded") ∧
      (s = "healthy" ↔ (queryRawSelect1 w.db).1 = Except.ok ()) ∧
      (s = "degraded" ↔ ∃ e, (queryRawSelect1 w.db).1 = Except.error e) ∧
      (∀ e, (queryRawSelect1 w.db).1 = Except.error e →
        (healthHandler w).2.2 = ["DB check failed: " ++ e]) := by
  cases h : w.db.reachable
  · refine ⟨"degraded", ?_⟩
    simp [healthHandler, queryRawSelect1, jsonResponse, h]
  · refine ⟨"healthy", ?_⟩
    simp [healthHandler, queryRawSelect1, jsonResponse, h]

/-- C5: Every GET /health response includes an `uptime` field carrying
the `process.uptime()` value and a `timestamp` field carrying
`new Date().toISOString()`, which has the ISO-8601 UTC shape, regardless
of whether the database probe succeeded or failed. -/
theorem health_always_uptime_timestamp (w : World) :
    ∃ r : Response, (healthHandler w).1 = Except.ok r ∧
      List.lookup "uptime" r.body = some (Json.num w.uptimeSec) ∧
      List.lookup "timestamp" r.body = some (Json.str (toISOString w.nowMs)) ∧
      isISO8601UTC (toISOString w.nowMs) = true := by
  cases h : w.db.reachable
  · exact ⟨jsonResponse
        [("status", Json.str "degraded"), ("uptime", Json.num w.uptimeSec),
         ("timestamp", Json.str (toISOString w.nowMs))],
      by simp [healthHandler, queryRawSelect1, jsonResponse, h], rfl, rfl,
      toISOString_isISO8601 _⟩
  · exact ⟨jsonResponse
        [("status", Json.str "healthy"), ("uptime", Json.num w.uptimeSec),
         ("timestamp", Json.str (toISOString w.nowMs))],
      by simp [healthHandler, queryRawSelect1, jsonResponse, h], rfl, rfl,
      toISOString_isISO8601 _⟩

/-- C6: GET / is deterministic and side-effect free: any two calls, in
any worlds, return the same response; the database state is unchanged,
nothing is logged, and the payload carries a `service` name string,
`status` "running" and a `version` string with HTTP status 200. -/
theorem root_pure_constant (w w2 : World) :
    (rootHandler w).1 = (rootHandler w2).1 ∧
    (rootHandler w).2.1 = w.db ∧
    (rootHandler w).2.2 = [] ∧
    ∃ r : Response, (rootHandler w).1 = Except.ok r ∧ r.statusCode = 200 ∧
      List.lookup "service" r.body = some (Json.str "API Server") ∧
      List.lookup "status" r.body = some (Json.str "running") ∧
      List.lookup "version" r.body = some (Json.str "1.0.0") :=
  ⟨rfl, rfl, rfl, _, rfl, rfl, rfl, rfl, rfl⟩

/-- C9: The root endpoint's payload is exactly the constant object
`service = "API Server"`, `status = "running"`, `version = "1.0.0"`,
in that field order, for every call. -/
theorem root_payload_exact (w : World) :
    handleGet "/" w = some (rootHandler w) ∧
    (rootHandler w).1 = Except.ok
      { statusCode := 200,
        body := [("service", Json.str "API Server"),
                 ("status", Json.str "running"),
                 ("version", Json.str "1.0.0")] } :=
  ⟨rfl, rfl⟩

/-- C8: Every GET /health request performs exactly one database
round-trip attempt (the `SELECT 1` of `queryRawSelect1`) and never
retries: the resulting database state is one single application of
`queryRawSelect1`, whose query counter grows by exactly one, on the
success path and on the failure path alike. -/
theorem health_one_roundtrip_no_retry (w : World) :
    (healthHandler w).2.1 = (queryRawSelect1 w.db).2 ∧
    (healthHandler w).2.1.queries = w.db.queries + 1 := by
  cases h : w.db.reachable <;> simp [healthHandler, queryRawSelect1, h]

/-- C3: For every termination-signal delivery, the disconnect is
attempted and the whole-process trace reaches a process exit whether the
disconnect succeeds or fails; when it fails, the failure is unhandled:
the handler run ends in an unhandled promise rejection (no catch), and
the Node runtime's crash on that rejection is what exits the process. -/
theorem shutdown_exit_reached_on_failure (sig : Signal) (disc : Except String Unit) :
    SigEvent.disconnectAttempt ∈ runtimeTrace sig disc ∧
    (∃ c, SigEvent.processExit c ∈ runtimeTrace sig disc) ∧
    (∀ e, disc = Except.error e →
      (registeredHandler sig disc).2 = HandlerOutcome.unhandledRejection e) := by
  cases sig <;> cases disc <;>
    simp [runtimeTrace, registeredHandler, shutdown, shutdownBody, runAsync]

/-- Witness for C3 at the concrete failing disconnect "boom". -/
theorem shutdown_exit_reached_on_failure_w :
    SigEvent.disconnectAttempt ∈ runtimeTrace Signal.SIGTERM (Except.error "boom") ∧
    (registeredHandler Signal.SIGTERM (Except.error "boom")).2 =
      HandlerOutcome.unhandledRejection "boom" :=
  ⟨(shutdown_exit_reached_on_failure Signal.SIGTERM (Except.error "boom")).1,
   (shutdown_exit_reached_on_failure Signal.SIGTERM (Except.error "boom")).2.2 "boom" rfl⟩

/-- C4 counterexample: For the SIGTERM delivery in which
`prisma.$disconnect()` rejects with "boom", the handler does not
terminate the process with exit code 0: its run ends in an unhandled
rejection and no `processExit 0` event occurs in the whole-process
trace, so the claim's unconditional "then terminate the process with
exit code 0" fails for this delivery. -/
theorem shutdown_exit0_cex :
    (registeredHandler Signal.SIGTERM (Except.error "boom")).2 ≠ HandlerOutcome.exited 0 ∧
    SigEvent.processExit 0 ∉ runtimeTrace Signal.SIGTERM (Except.error "boom") := by
  decide

/-- C4 amended: For every delivery of SIGTERM or SIGINT, the shutdown
handler first logs the shutdown intent and then attempts the database
disconnect, and the process never exits via this handler before the
disconnect has been attempted; when the disconnect succeeds the handler
then terminates the process with exit code 0, while when it fails the
remaining statements are skipped and no exit happens via the handler
(the run ends in the unhandled rejection). -/
theorem shutdown_ordering_amended (sig : Signal) (disc : Except String Unit) :
    (∃ rest, (registeredHandler sig disc).1 =
      [SigEvent.logged shutdownLogMsg, SigEvent.disconnectAttempt] ++ rest) ∧
    (disc = Except.ok () →
      (registeredHandler sig disc).2 = HandlerOutcome.exited 0 ∧
      (registeredHandler sig disc).1 =
        [SigEvent.logged shutdownLogMsg, SigEvent.disconnectAttempt,
         SigEvent.processExit 0]) ∧
    (∀ e, disc = Except.error e →
      ∀ c, SigEvent.processExit c ∉ (registeredHandler sig disc).1) ∧
    (∀ i c, (registeredHandler sig disc).1.get? i = some (SigEvent.processExit c) →
      ∃ j, j < i ∧ (registeredHandler sig disc).1.get? j = some SigEvent.disconnectAttempt) := by
  cases sig <;> cases disc <;>
    refine ⟨⟨_, rfl⟩, ?_, ?_, ?_⟩ <;>
    simp [registeredHandler, shutdown, shutdownBody, runAsync] <;>
    intro i c h <;>
    match i with
    | 0 => simp [List.get?] at h
    | 1 => simp [List.get?] at h
    | 2 => exact ⟨1, by omega, rfl⟩
    | n+3 => simp [List.get?] at h

/-- Witness for the amended C4 at a SIGTERM delivery whose disconnect
succeeds. -/
theorem shutdown_ordering_amended_w :
    (registeredHandler Signal.SIGTERM (Except.ok ())).2 = HandlerOutcome.exited 0 :=
  ((shutdown_ordering_amended Signal.SIGTERM (Except.ok ())).2.1 rfl).1

/-- C7: The shutdown sequence is not idempotent: one handler run
attempts the disconnect once, and in the schedule where a second
termination signal arrives while the first run is suspended at its
`await`, the handler re-enters and the disconnect is attempted a second
time — no one-shot guard suppresses the repeated signal. -/
theorem shutdown_reentry_double_disconnect :
    (runToAwait shutdownBody).1.count SigEvent.disconnectAttempt = 1 ∧
    reentrantDeliveryEvents.count SigEvent.disconnectAttempt = 2 := by decide

/-- C10: The listening port defaults to 8080 exactly when the PORT
environment variable is unset or empty; for any other value `PORT`
returns `parseInt` of that value itself, so a set but non-numeric value
yields NaN (`none`) and the default 8080 is not applied. -/
theorem port_default_only_unset_or_empty :
    PORT none = some 8080 ∧
    PORT (some "") = some 8080 ∧
    (∀ s : String, s ≠ "" → PORT (some s) = jsParseInt10 s) ∧
    jsParseInt10 "not-a-number" = none ∧
    PORT (some "not-a-number") = none := by
  refine ⟨by decide, by decide, ?_, by decide, by decide⟩
  intro s hs
  simp [PORT, jsOrDefault, hs]

/-- Witness for C10 at the concrete set, non-empty value "3000". -/
theorem port_default_only_unset_or_empty_w :
    "3000" ≠ "" ∧ PORT (some "3000") = jsParseInt10 "3000" :=
  ⟨by decide, port_default_only_unset_or_empty.2.2.1 "3000" (by decide)⟩

end WaterfordWaveApi
